import Mathlib

/-!
Shallow embedding of the trusted-xuper-rust-sdk transfer core
(`src/xchain-client-sdk/src/session.rs` and `src/xchain-client-sdk/src/transfer.rs`).

Byte strings (`Vec<u8>`) are `List Nat`; arbitrary-precision integers
(`num_bigint::BigInt`) are `Int`; machine 64-bit arithmetic is `Int` with an
explicit wrap at `2 ^ 64`.  External collaborators (the endorser gateway, the
broadcast gateway, the digest/identifier codec, signing, nonce and clock) are
supplied as an explicit environment of functions, and every network call made
is recorded in an effect trace so that statements such as "fails before any
network interaction" are expressible.
-/

set_option maxHeartbeats 1000000

namespace XchainSdk

abbrev Bytes := List Nat

/-- Model of `String::into_bytes` / `str::as_bytes`: the code only builds byte
strings from `String`s and compares them for equality, so the codepoint
sequence is a faithful (injective) stand-in for the UTF-8 bytes. -/
def strToBytes (s : String) : Bytes := s.data.map Char.toNat

/-- Big-endian base-256 digits of a positive natural number, accumulator form. -/
def natToBytesBEAux (n : Nat) (acc : Bytes) : Bytes :=
  if h : n = 0 then acc else natToBytesBEAux (n / 256) (n % 256 :: acc)
decreasing_by exact Nat.div_lt_self (Nat.pos_of_ne_zero h) (by decide)

/-- Model of `num_bigint::BigInt::to_bytes_be().1` (the magnitude bytes):
big-endian base-256, with zero encoded as the single byte `0`. -/
def natToBytesBE (n : Nat) : Bytes :=
  if n = 0 then [0] else natToBytesBEAux n []

/-- Magnitude bytes of an `Int` (the `.1` of `to_bytes_be` drops the sign). -/
def intMagBytesBE (i : Int) : Bytes := natToBytesBE i.natAbs

/-- Model of `num_bigint::BigInt::from_bytes_be(Sign::Plus, b)`. -/
def bytesToNat (b : Bytes) : Nat := b.foldl (fun a x => a * 256 + x) 0

/-- One lowercase hexadecimal digit, as produced by the `hex` crate. -/
def hexDigit (n : Nat) : Char :=
  if n < 10 then Char.ofNat (48 + n) else Char.ofNat (87 + n)

/-- Model of `hex::encode`: two lowercase hex digits per byte. -/
def hexEncode (b : Bytes) : String :=
  String.mk (b.foldr (fun x acc => hexDigit (x / 16 % 16) :: hexDigit (x % 16) :: acc) [])

/-- Wrap an unbounded integer into the signed 64-bit range, the semantics of
Rust release-mode `i64` addition and of `as i64` casts. -/
def i64wrap (n : Int) : Int := (n + 2 ^ 63) % 2 ^ 64 - 2 ^ 63

/-- Error kinds of `xchain_node_sdk::errors::ErrorKind` used by this core;
gateway/serialization/signing failures are carried as `other`. -/
inductive ErrorKind where
  | ContractCodeGT400
  | ParseError
  | InvalidArguments
  | other (msg : String)
deriving Repr, DecidableEq

abbrev Res (α : Type) := Except ErrorKind α

/-- Value of a list of decimal digit characters, `none` when the list is empty
or contains a non-digit. -/
def decDigitsValue : List Char → Option Nat
  | [] => none
  | cs => cs.foldl
      (fun acc c =>
        match acc with
        | none => none
        | some a => if c.isDigit then some (a * 10 + (c.toNat - 48)) else none)
      (some 0)

/-- Modelled from the spec: `crate::consts::str_as_bigint` (its source file is
not under `src/`): parses a decimal string into an arbitrary-precision
non-negative integer and fails with `ParseError` on malformed input. -/
def str_as_bigint (s : String) : Res Int :=
  match decDigitsValue s.data with
  | some n => .ok (n : Int)
  | none => .error .ParseError

/-- Modelled from the spec: `crate::consts::str_as_i64` (its source file is not
under `src/`): validates a decimal string as a signed 64-bit integer, failing
with `ParseError` on malformed or out-of-range input. -/
def str_as_i64 (s : String) : Res Int :=
  match decDigitsValue s.data with
  | some n => if (n : Int) < 2 ^ 63 then .ok (n : Int) else .error .ParseError
  | none => .error .ParseError

/-- `xchain::TxInput`. -/
structure TxInput where
  ref_txid : Bytes
  ref_offset : Int
  from_addr : Bytes
  amount : Bytes
deriving Repr, DecidableEq, Inhabited

/-- `xchain::TxOutput`; `TxOutput.new` is the protobuf default value. -/
structure TxOutput where
  to_addr : Bytes
  amount : Bytes
deriving Repr, DecidableEq, Inhabited

def TxOutput.new : TxOutput := { to_addr := [], amount := [] }

/-- `xchain::Utxo`. -/
structure Utxo where
  amount : Bytes
  toAddr : Bytes
  refTxid : Bytes
  refOffset : Int
deriving Repr, DecidableEq, Inhabited

/-- `xchain::UtxoOutput`: the `SpendUnitPool` of the spec. -/
structure UtxoOutput where
  utxoList : List Utxo
  totalSelected : String
deriving Repr, DecidableEq, Inhabited

/-- `xchain::SignatureInfo`. -/
structure SignatureInfo where
  PublicKey : Bytes
  Sign : Bytes
deriving Repr, DecidableEq, Inhabited

/-- `xchain::ContractResponse` (only the fields this core reads). -/
structure ContractResponse where
  status : Int
  message : String
  body : Bytes
deriving Repr, DecidableEq, Inhabited

/-- Contract-extension payloads (`TxInputExt`, `TxOutputExt`, `InvokeRequest`):
opaque to this core, which only copies them verbatim. -/
abbrev TxInputExt := Bytes
abbrev TxOutputExt := Bytes
abbrev InvokeRequest := Bytes

/-- The `response` part of `xchain::PreExecWithSelectUTXOResponse`. -/
structure InvokeResponse where
  responses : List ContractResponse
  inputs : List TxInputExt
  outputs : List TxOutputExt
  requests : List InvokeRequest
deriving Repr, DecidableEq, Inhabited

/-- `xchain::PreExecWithSelectUTXOResponse`. -/
structure PreExecWithSelectUTXOResponse where
  response : InvokeResponse
  utxoOutput : UtxoOutput
deriving Repr, DecidableEq, Inhabited

/-- `xchain::InvokeRPCRequest`. -/
structure InvokeRPCRequest where
  bcname : String
  requests : List InvokeRequest
  initiator : String
  auth_require : List String
deriving Repr, DecidableEq, Inhabited

/-- `xchain::PreExecWithSelectUTXORequest`. -/
structure PreExecWithSelectUTXORequest where
  bcname : String
  address : String
  totalAmount : Int
  request : InvokeRPCRequest
deriving Repr, DecidableEq, Inhabited

/-- `xchain::Transaction`; field defaults are the protobuf defaults set by
`Transaction::new()`. -/
structure Transaction where
  txid : Bytes := []
  version : Int := 0
  desc : Bytes := []
  coinbase : Bool := false
  timestamp : Int := 0
  tx_inputs : List TxInput := []
  tx_outputs : List TxOutput := []
  initiator : String := ""
  nonce : String := ""
  auth_require : List String := []
  initiator_signs : List SignatureInfo := []
  auth_require_signs : List SignatureInfo := []
  tx_inputs_ext : List TxInputExt := []
  tx_outputs_ext : List TxOutputExt := []
  contract_requests : List InvokeRequest := []
deriving Repr, DecidableEq, Inhabited

/-- `xchain::TxStatus` (the fields this core sets). -/
structure TxStatus where
  bcname : String
  tx : Transaction
deriving Repr, DecidableEq, Inhabited

/-- `xendorser::EndorserRequest`; `Fee` is the optional fee transaction. -/
structure EndorserRequest where
  RequestName : String
  BcName : String
  Fee : Option Transaction
  RequestData : Bytes
deriving Repr, DecidableEq, Inhabited

/-- `xendorser::EndorserResponse`; an absent `EndorserSign` models a response
with no endorsement signature. -/
structure EndorserResponse where
  ResponseData : Bytes
  EndorserSign : Option SignatureInfo
deriving Repr, DecidableEq, Inhabited

/-- `wallet::Account`: address, optional contract name, and the signing
interface (external, supplied as functions). -/
structure Account where
  address : String
  contract_name : String
  sign : Bytes → Res Bytes
  public_key : Res Bytes

/-- `session::Message`: the transfer intent. -/
structure Message where
  «to» : String
  amount : String
  fee : String
  desc : String
  frozen_height : Int
  initiator : String
  auth_require : List String

/-- `session::Session`. -/
structure Session where
  chain_name : String
  account : Account
  msg : Message

/-- Modelled from the spec: the process configuration (`config` module, not
under `src/`): the endorsement fee is a non-negative configured integer, and
the two configured addresses. -/
structure Config where
  compliance_check_endorse_service_fee : Nat
  compliance_check_endorse_service_fee_addr : String
  compliance_check_endorse_service_addr : String

/-- A network interaction: either an endorser-gateway call
(`ocall_xchain_endorser_call`) or a broadcast (`ocall_xchain_post_tx`). -/
inductive Effect where
  | endorserCall (r : EndorserRequest)
  | postTx (t : Transaction)
deriving Repr, DecidableEq

/-- Result of a computation that can also abort the process (the unchecked
`Option::unwrap` in `compliance_check`). -/
inductive Outcome (α : Type) where
  | ok (a : α)
  | err (e : ErrorKind)
  | panic
deriving Repr, DecidableEq, Inhabited

/-- The external world: digest/identifier codec (`encoder`), nonce issuance and
clock (one value per builder call), serde serialization, and the two gateways.
All are pure functions of their inputs, matching spec section 6. -/
structure Env where
  make_tx_digest_hash : Transaction → Res Bytes
  make_transaction_id : Transaction → Res Bytes
  get_nonce1 : Res String
  get_nonce2 : Res String
  ts1 : Int
  ts2 : Int
  serPreExecReq : PreExecWithSelectUTXORequest → Res String
  deserPreExecResp : Bytes → Res PreExecWithSelectUTXOResponse
  serTxStatus : TxStatus → Res String
  endorserCall : EndorserRequest → Res EndorserResponse
  postTx : Transaction → Res Unit

/-- Modelled from the spec: `consts::TXVersion` (its source file is not under
`src/`), the current protocol version constant; its concrete value does not
matter to any claim. -/
def TXVersion : Int := 1

/-- `Session::check_resp_code`: scans the contract responses and fails with
`ContractCodeGT400` on the first status strictly above 400. -/
def Session.check_resp_code (resp : List ContractResponse) : Res Unit :=
  match resp with
  | [] => .ok ()
  | r :: rest =>
    if r.status > 400 then .error .ContractCodeGT400
    else Session.check_resp_code rest

/-- `Session::generate_tx_input`: one `TxInput` per `Utxo` of the pool, in
order, then parse the pool total and build the change output (the protobuf
default `TxOutput` when the total does not strictly exceed the need). -/
def Session.generate_tx_input (s : Session) (utxo_output : UtxoOutput)
    (total_need : Int) : Res (List TxInput × TxOutput) :=
  let tx_inputs := utxo_output.utxoList.map (fun u =>
    { ref_txid := u.refTxid, ref_offset := u.refOffset,
      from_addr := u.toAddr, amount := u.amount : TxInput })
  match str_as_bigint utxo_output.totalSelected with
  | .error e => .error e
  | .ok utxo_total =>
    let change : TxOutput :=
      if total_need < utxo_total then
        { to_addr := strToBytes s.account.address,
          amount := intMagBytesBE (utxo_total - total_need) }
      else TxOutput.new
    .ok (tx_inputs, change)

/-- `Session::generate_tx_output`: an output to the destination when the
destination is non-empty, then an output to the sentinel address `$` when the
fee string is non-empty and not the literal `0`. -/
def Session.generate_tx_output (toAddr amount fee : String) : Res (List TxOutput) :=
  match (if toAddr = "" then (.ok [] : Res (List TxOutput)) else
    match str_as_bigint amount with
    | .error e => .error e
    | .ok am => .ok [{ to_addr := strToBytes toAddr, amount := intMagBytesBE am : TxOutput }]) with
  | .error e => .error e
  | .ok destOuts =>
    match (if fee = "" ∨ fee = "0" then (.ok [] : Res (List TxOutput)) else
      match str_as_bigint fee with
      | .error e => .error e
      | .ok fm => .ok [{ to_addr := strToBytes "$", amount := intMagBytesBE fm : TxOutput }]) with
    | .error e => .error e
    | .ok feeOuts => .ok (destOuts ++ feeOuts)

/-- The shared signing tail of both transaction builders: compute the signing
digest, sign it, attach the initiator `SignatureInfo` (and, when `alsoAuth` is
set -- the account is contract-backed -- the same signature on the
auth-required list), then compute and set the transaction identifier over the
now-signed transaction. -/
def sign_and_set_txid (env : Env) (s : Session) (tx : Transaction)
    (alsoAuth : Bool) : Res Transaction :=
  match env.make_tx_digest_hash tx with
  | .error e => .error e
  | .ok digest =>
  match s.account.sign digest with
  | .error e => .error e
  | .ok sig =>
  match s.account.public_key with
  | .error e => .error e
  | .ok pk =>
    let si : SignatureInfo := { PublicKey := pk, Sign := sig }
    let signed0 : Transaction := { tx with initiator_signs := [si] }
    let signed : Transaction :=
      if alsoAuth then { signed0 with auth_require_signs := [si] } else signed0
    match env.make_transaction_id signed with
    | .error e => .error e
    | .ok tid => .ok { signed with txid := tid }

/-- `Session::gen_compliance_check_tx`: build the fee transaction paying the
configured endorsement fee, sign it and set its identifier. -/
def Session.gen_compliance_check_tx (env : Env) (s : Session) (cfg : Config)
    (resp : PreExecWithSelectUTXOResponse) : Res Transaction :=
  let total_need : Int := i64wrap cfg.compliance_check_endorse_service_fee
  match s.generate_tx_input resp.utxoOutput total_need with
  | .error e => .error e
  | .ok inputs_change =>
  let tx_inputs := inputs_change.1
  let change := inputs_change.2
  match Session.generate_tx_output cfg.compliance_check_endorse_service_fee_addr
      (toString cfg.compliance_check_endorse_service_fee) "0" with
  | .error e => .error e
  | .ok outs =>
    let tx_outputs := if change.to_addr ≠ [] then outs ++ [change] else outs
    match env.get_nonce1 with
    | .error e => .error e
    | .ok nonce =>
      sign_and_set_txid env s
        { desc := strToBytes "compliance check tx", version := TXVersion,
          coinbase := false, timestamp := env.ts1, tx_inputs := tx_inputs,
          tx_outputs := tx_outputs, initiator := s.msg.initiator, nonce := nonce }
        false

/-- The scan loop of `Session::gen_real_tx`: walk the fee transaction's
outputs with a running index, collecting every output addressed to the
initiator as a `Utxo` referencing the fee transaction, and summing their
amounts. -/
def collect_initiator_utxos_aux (outs : List TxOutput) (initiatorBytes : Bytes)
    (txid : Bytes) (idx : Nat) : List Utxo × Nat :=
  match outs with
  | [] => ([], 0)
  | o :: rest =>
    let (us, t) := collect_initiator_utxos_aux rest initiatorBytes txid (idx + 1)
    if o.to_addr = initiatorBytes then
      ({ amount := o.amount, toAddr := o.to_addr, refTxid := txid,
         refOffset := (idx : Int) } :: us, bytesToNat o.amount + t)
    else (us, t)

/-- The synthetic `SpendUnitPool` scan of `Session::gen_real_tx`, starting at
output index 0. -/
def collect_initiator_utxos (outs : List TxOutput) (initiatorBytes : Bytes)
    (txid : Bytes) : List Utxo × Nat :=
  collect_initiator_utxos_aux outs initiatorBytes txid 0

/-- `Session::gen_real_tx`: build the transfer transaction, funding it from
the fee transaction's outputs that are addressed to the initiator. -/
def Session.gen_real_tx (env : Env) (s : Session)
    (resp : PreExecWithSelectUTXOResponse) (cctx : Transaction) : Res Transaction :=
  match Session.generate_tx_output s.msg.«to» s.msg.amount s.msg.fee with
  | .error e => .error e
  | .ok outs0 =>
    let (utxo_list, total_selected) :=
      collect_initiator_utxos cctx.tx_outputs (strToBytes s.msg.initiator) cctx.txid
    let utxo_output : UtxoOutput :=
      { utxoList := utxo_list, totalSelected := toString total_selected }
    match str_as_bigint s.msg.amount with
    | .error e => .error e
    | .ok amountV =>
    match str_as_bigint s.msg.fee with
    | .error e => .error e
    | .ok feeV =>
      let total_need := amountV + feeV
      match s.generate_tx_input utxo_output total_need with
      | .error e => .error e
      | .ok inputs_change =>
        let tx_inputs := inputs_change.1
        let change := inputs_change.2
        let tx_outputs := if change.to_addr ≠ [] then outs0 ++ [change] else outs0
        match env.get_nonce2 with
        | .error e => .error e
        | .ok nonce =>
          sign_and_set_txid env s
            { desc := [], version := TXVersion, coinbase := false,
              timestamp := env.ts2, tx_inputs := tx_inputs,
              tx_outputs := tx_outputs, initiator := s.msg.initiator,
              nonce := nonce, auth_require := s.msg.auth_require,
              tx_inputs_ext := resp.response.inputs,
              tx_outputs_ext := resp.response.outputs,
              contract_requests := resp.response.requests }
            (s.account.contract_name != "")

/-- `Session::compliance_check`: send the real transaction (with the fee
transaction attached) to the endorsement service; the signature of the
response is taken by an unchecked `unwrap`, which aborts (`panic`) when the
response carries no signature. -/
def Session.compliance_check (env : Env) (s : Session) (tx fee : Transaction) :
    Outcome SignatureInfo × List Effect :=
  match env.serTxStatus { bcname := s.chain_name, tx := tx } with
  | .error e => (.err e, [])
  | .ok request_data =>
    let req : EndorserRequest :=
      { RequestName := "ComplianceCheck", BcName := s.chain_name,
        Fee := some fee, RequestData := strToBytes request_data }
    match env.endorserCall req with
    | .error e => (.err e, [.endorserCall req])
    | .ok resp =>
      match resp.EndorserSign with
      | none => (.panic, [.endorserCall req])
      | some sig => (.ok sig, [.endorserCall req])

/-- `Session::pre_exec_with_select_utxo`: serialize the request, call the
endorser gateway under the name `PreExecWithFee`, deserialize and validate the
response. -/
def Session.pre_exec_with_select_utxo (env : Env) (s : Session)
    (req : PreExecWithSelectUTXORequest) :
    Res PreExecWithSelectUTXOResponse × List Effect :=
  match env.serPreExecReq req with
  | .error e => (.error e, [])
  | .ok request_data =>
    let ereq : EndorserRequest :=
      { RequestName := "PreExecWithFee", BcName := s.chain_name,
        Fee := none, RequestData := strToBytes request_data }
    match env.endorserCall ereq with
    | .error e => (.error e, [.endorserCall ereq])
    | .ok resp =>
      match env.deserPreExecResp resp.ResponseData with
      | .error e => (.error e, [.endorserCall ereq])
      | .ok presp =>
        match Session.check_resp_code presp.response.responses with
        | .error e => (.error e, [.endorserCall ereq])
        | .ok _ => (.ok presp, [.endorserCall ereq])

/-- `Session::gen_complete_tx_and_post`: build the fee transaction, build the
real transaction, obtain the endorsement signature, append it to the real
transaction's auth-required signature list, recompute the identifier,
broadcast, and return the identifier hex-encoded. -/
def Session.gen_complete_tx_and_post (env : Env) (s : Session) (cfg : Config)
    (pre_exec_resp : PreExecWithSelectUTXOResponse) :
    Outcome String × List Effect :=
  match Session.gen_compliance_check_tx env s cfg pre_exec_resp with
  | .error e => (.err e, [])
  | .ok cctx =>
  match Session.gen_real_tx env s pre_exec_resp cctx with
  | .error e => (.err e, [])
  | .ok tx =>
  let cc := Session.compliance_check env s tx cctx
  let tr := cc.2
  match cc.1 with
  | .err e => (.err e, tr)
  | .panic => (.panic, tr)
  | .ok end_sign =>
    let tx1 : Transaction :=
      { tx with auth_require_signs := tx.auth_require_signs ++ [end_sign] }
    match env.make_transaction_id tx1 with
    | .error e => (.err e, tr)
    | .ok tid =>
      let tx2 : Transaction := { tx1 with txid := tid }
      match env.postTx tx2 with
      | .error e => (.err e, tr ++ [.postTx tx2])
      | .ok _ => (.ok (hexEncode tid), tr ++ [.postTx tx2])

/-- `transfer::transfer`: parse the amount and fee as `i64`, validate the
endorsement fee and the (wrapping) total, run pre-execution and then the
complete build-endorse-post pipeline.  The `i64` additions are modelled with
release-mode wrapping semantics, which the code's own overflow check assumes. -/
def transfer (env : Env) (cfg : Config) (account : Account)
    (chain_name toAddr amount fee desc : String) : Outcome String × List Effect :=
  match str_as_i64 amount with
  | .error e => (.err e, [])
  | .ok amountV =>
  match str_as_i64 fee with
  | .error e => (.err e, [])
  | .ok feeV =>
    let auth_requires := [cfg.compliance_check_endorse_service_addr]
    let endorser_fee := i64wrap cfg.compliance_check_endorse_service_fee
    if amountV < endorser_fee then (.err .InvalidArguments, [])
    else
      let total_amount := i64wrap (amountV + feeV + endorser_fee)
      if total_amount < amountV then (.err .InvalidArguments, [])
      else
        let invoke_rpc_request : InvokeRPCRequest :=
          { bcname := chain_name, requests := [],
            initiator := account.address, auth_require := auth_requires }
        let pre_req : PreExecWithSelectUTXORequest :=
          { bcname := chain_name, address := account.address,
            totalAmount := total_amount, request := invoke_rpc_request }
        let msg : Message :=
          { «to» := toAddr, fee := toString feeV, desc := desc,
            auth_require := auth_requires, amount := amount,
            frozen_height := 0, initiator := account.address }
        let s : Session := { chain_name := chain_name, account := account, msg := msg }
        match Session.pre_exec_with_select_utxo env s pre_req with
        | (.error e, tr) => (.err e, tr)
        | (.ok presp, tr) =>
          let (r, tr2) := Session.gen_complete_tx_and_post env s cfg presp
          (r, tr ++ tr2)

/-! Concrete fixtures used to instantiate the theorems below on executable
inputs. -/

/-- A concrete account: signing and the public key always succeed. -/
def accountW : Account :=
  { address := "a", contract_name := "",
    sign := fun _ => .ok [0], public_key := .ok [1] }

/-- A concrete transfer intent whose amount and fee parse and produce no
outputs (empty destination, zero fee). -/
def msgW : Message :=
  { «to» := "", amount := "0", fee := "0", desc := "d", frozen_height := 0,
    initiator := "a", auth_require := ["e"] }

/-- A concrete session. -/
def sessionW : Session := { chain_name := "xuper", account := accountW, msg := msgW }

/-- A concrete endorsement signature. -/
def sigW : SignatureInfo := { PublicKey := [3], Sign := [4] }

/-- A concrete pre-execution response with an empty pool of total `0`. -/
def prespW : PreExecWithSelectUTXOResponse :=
  { response := { responses := [], inputs := [], outputs := [], requests := [] },
    utxoOutput := { utxoList := [], totalSelected := "0" } }

/-- A concrete configuration with a zero endorsement fee. -/
def cfgW : Config :=
  { compliance_check_endorse_service_fee := 0,
    compliance_check_endorse_service_fee_addr := "",
    compliance_check_endorse_service_addr := "e" }

/-- A concrete environment in which every external call succeeds and the
endorser always returns the signature `sigW`. -/
def envW : Env :=
  { make_tx_digest_hash := fun _ => .ok [],
    make_transaction_id := fun _ => .ok [2],
    get_nonce1 := .ok "n1", get_nonce2 := .ok "n2", ts1 := 0, ts2 := 0,
    serPreExecReq := fun _ => .ok "q",
    deserPreExecResp := fun _ => .ok prespW,
    serTxStatus := fun _ => .ok "s",
    endorserCall := fun _ => .ok { ResponseData := [], EndorserSign := some sigW },
    postTx := fun _ => .ok () }

/-- The environment `envW` with an endorser that returns no signature. -/
def envNoSig : Env :=
  { envW with endorserCall := fun _ => .ok { ResponseData := [], EndorserSign := none } }

/-- The environment `envW` with an endorser gateway that is down. -/
def envDown : Env :=
  { envW with endorserCall := fun _ => .error (.other "down") }

/-- A default (empty) transaction. -/
def txW : Transaction := {}

/-- A concrete one-element spend pool of total `7`, owned by `a`. -/
def poolW : UtxoOutput :=
  { utxoList := [{ amount := [7], toAddr := strToBytes "a", refTxid := [9], refOffset := 0 }],
    totalSelected := "7" }

/-- A concrete configuration with endorsement fee `100`. -/
def cfg100 : Config :=
  { compliance_check_endorse_service_fee := 100,
    compliance_check_endorse_service_fee_addr := "f",
    compliance_check_endorse_service_addr := "e" }

/-- A concrete configuration with endorsement fee `2 ^ 62`. -/
def cfgBig : Config :=
  { compliance_check_endorse_service_fee := 4611686018427387904,
    compliance_check_endorse_service_fee_addr := "f",
    compliance_check_endorse_service_addr := "e" }

/-! Claim theorems. -/

/-- C9: pre-execution validation (`check_resp_code`) returns `Ok` if and only
if every embedded response status is at most 400 (so a status of exactly 400
passes), and otherwise fails with `ContractCodeGT400`. -/
theorem check_resp_code_ok_iff (resp : List ContractResponse) :
    (Session.check_resp_code resp = .ok () ↔ ∀ r ∈ resp, r.status ≤ 400) ∧
    (¬ (∀ r ∈ resp, r.status ≤ 400) →
      Session.check_resp_code resp = .error .ContractCodeGT400) := by
  induction resp with
  | nil => simp [Session.check_resp_code]
  | cons r rest ih =>
    by_cases h : r.status > 400
    · refine ⟨?_, ?_⟩
      · simp only [Session.check_resp_code, if_pos h]
        constructor
        · intro hc; cases hc
        · intro hall; exact absurd (hall r (by simp)) (by omega)
      · intro _; simp only [Session.check_resp_code, if_pos h]
    · have hr : r.status ≤ 400 := by omega
      refine ⟨?_, ?_⟩
      · simp only [Session.check_resp_code, if_neg h]
        rw [ih.1]
        simp [hr]
      · intro hne
        simp only [Session.check_resp_code, if_neg h]
        exact ih.2 (fun hc => hne (by simp [hr]; exact hc))

/-- Witness for C9: a single status of exactly 400 passes; a single status of
401 fails with `ContractCodeGT400`. -/
theorem check_resp_code_ok_iff_witness :
    Session.check_resp_code [{ status := 400, message := "", body := [] }] = .ok () ∧
    Session.check_resp_code [{ status := 401, message := "", body := [] }] =
      .error .ContractCodeGT400 :=
  ⟨(check_resp_code_ok_iff _).1.mpr (by decide),
   (check_resp_code_ok_iff _).2 (by decide)⟩

/-- C2: when the pool total parses, `generate_tx_input` returns exactly one
`TxInput` per `Utxo` of the pool, in pool order, copying the reference
transaction id, offset, owning address and amount, together with a change
output to the account's own address of amount `total - need` exactly when the
pool total strictly exceeds the need (and the protobuf default, i.e. no
change output, otherwise); in particular it does not fail when the total is
below the need. -/
theorem generate_tx_input_spec (s : Session) (pool : UtxoOutput) (need total : Int)
    (h : str_as_bigint pool.totalSelected = .ok total) :
    s.generate_tx_input pool need = .ok
      (pool.utxoList.map (fun u =>
        { ref_txid := u.refTxid, ref_offset := u.refOffset,
          from_addr := u.toAddr, amount := u.amount }),
       if need < total then
         { to_addr := strToBytes s.account.address,
           amount := intMagBytesBE (total - need) }
       else TxOutput.new) := by
  simp [Session.generate_tx_input, h]

/-- Witness for C2: a one-element pool of total `7` against a need of `5`
yields the copied input and a change output of `2` to the account. -/
theorem generate_tx_input_spec_witness :
    str_as_bigint poolW.totalSelected = .ok 7 ∧
    sessionW.generate_tx_input poolW 5 = .ok
      (poolW.utxoList.map (fun u =>
        { ref_txid := u.refTxid, ref_offset := u.refOffset,
          from_addr := u.toAddr, amount := u.amount }),
       if (5 : Int) < 7 then
         { to_addr := strToBytes sessionW.account.address,
           amount := intMagBytesBE (7 - 5) }
       else TxOutput.new) :=
  ⟨rfl, generate_tx_input_spec sessionW poolW 5 7 rfl⟩

/-- The scan loop, characterized for an arbitrary starting index: it keeps
exactly the indexed outputs addressed to the initiator, in index order, and
sums their amounts. -/
theorem collect_initiator_utxos_aux_spec (ib txid : Bytes) (outs : List TxOutput)
    (k : Nat) :
    collect_initiator_utxos_aux outs ib txid k =
      (((outs.enumFrom k).filter (fun p => p.2.to_addr = ib)).map (fun p =>
         { amount := p.2.amount, toAddr := p.2.to_addr, refTxid := txid,
           refOffset := (p.1 : Int) }),
       (((outs.enumFrom k).filter (fun p => p.2.to_addr = ib)).map
         (fun p => bytesToNat p.2.amount)).sum) := by
  induction outs generalizing k with
  | nil => simp [collect_initiator_utxos_aux, List.enumFrom]
  | cons o rest ih =>
    simp only [collect_initiator_utxos_aux, ih, List.enumFrom]
    by_cases h : o.to_addr = ib
    · simp [h, List.filter_cons]
    · simp [h, List.filter_cons]

/-- C3: the synthetic SpendUnitPool scan of `gen_real_tx` collects exactly the
fee transaction's outputs whose destination equals the initiator's address, in
output-index order, each as a `Utxo` whose reference transaction id is the fee
transaction's identifier and whose reference offset is the output's index, and
its total is the sum of those outputs' amounts. -/
theorem collect_initiator_utxos_spec (outs : List TxOutput) (ib txid : Bytes) :
    collect_initiator_utxos outs ib txid =
      ((((outs.enum).filter (fun p => p.2.to_addr = ib)).map (fun p =>
         { amount := p.2.amount, toAddr := p.2.to_addr, refTxid := txid,
           refOffset := (p.1 : Int) })),
       ((((outs.enum).filter (fun p => p.2.to_addr = ib)).map
         (fun p => bytesToNat p.2.amount)).sum)) := by
  rw [collect_initiator_utxos, collect_initiator_utxos_aux_spec, List.enum]

/-- C6: on success, `generate_tx_output` returns no destination output when
the destination address is empty, no fee output when the fee string is empty
or the literal `0`, a fee output to the sentinel address `$` when the fee is
non-empty and not `0`, and when both outputs are present exactly the two of
them in destination-then-fee order. -/
theorem generate_tx_output_spec (toAddr amount fee : String) (outs : List TxOutput)
    (h : Session.generate_tx_output toAddr amount fee = .ok outs) :
    ∃ am fm : Int,
      outs =
        (if toAddr = "" then []
         else [{ to_addr := strToBytes toAddr, amount := intMagBytesBE am }]) ++
        (if fee = "" ∨ fee = "0" then []
         else [{ to_addr := strToBytes "$", amount := intMagBytesBE fm }]) ∧
      (toAddr ≠ "" → str_as_bigint amount = .ok am) ∧
      (¬ (fee = "" ∨ fee = "0") → str_as_bigint fee = .ok fm) := by
  by_cases ht : toAddr = "" <;> by_cases hf : fee = "" ∨ fee = "0"
  · refine ⟨0, 0, ?_, by simp [ht], by simp [hf]⟩
    simp [Session.generate_tx_output, ht, hf] at h
    simp [ht, hf, h.symm]
  · cases hfb : str_as_bigint fee with
    | error e => simp [Session.generate_tx_output, ht, hf, hfb] at h
    | ok fm =>
      refine ⟨0, fm, ?_, by simp [ht], fun _ => rfl⟩
      simp [Session.generate_tx_output, ht, hf, hfb] at h
      simp [ht, hf, h.symm]
  · cases hab : str_as_bigint amount with
    | error e => simp [Session.generate_tx_output, ht, hf, hab] at h
    | ok am =>
      refine ⟨am, 0, ?_, fun _ => rfl, by simp [hf]⟩
      simp [Session.generate_tx_output, ht, hf, hab] at h
      simp [ht, hf, h.symm]
  · cases hab : str_as_bigint amount with
    | error e => simp [Session.generate_tx_output, ht, hf, hab] at h
    | ok am =>
      cases hfb : str_as_bigint fee with
      | error e => simp [Session.generate_tx_output, ht, hf, hab, hfb] at h
      | ok fm =>
        refine ⟨am, fm, ?_, fun _ => rfl, fun _ => rfl⟩
        simp [Session.generate_tx_output, ht, hf, hab, hfb] at h
        simp [ht, hf, h.symm]

/-- Witness for C6: destination `b`, amount `5`, fee `7` produce exactly the
destination output followed by the sentinel fee output. -/
theorem generate_tx_output_spec_witness :
    ∃ am fm : Int,
      [({ to_addr := strToBytes "b", amount := intMagBytesBE 5 } : TxOutput),
       { to_addr := strToBytes "$", amount := intMagBytesBE 7 }] =
        (if "b" = "" then []
         else [{ to_addr := strToBytes "b", amount := intMagBytesBE am }]) ++
        (if "7" = "" ∨ "7" = "0" then []
         else [{ to_addr := strToBytes "$", amount := intMagBytesBE fm }]) ∧
      ("b" ≠ "" → str_as_bigint "5" = .ok am) ∧
      (¬ ("7" = "" ∨ "7" = "0") → str_as_bigint "7" = .ok fm) :=
  generate_tx_output_spec "b" "5" "7"
    [{ to_addr := strToBytes "b", amount := intMagBytesBE 5 },
     { to_addr := strToBytes "$", amount := intMagBytesBE 7 }] rfl

/-- Counterexample for C7: with an empty destination the amount string is
never parsed, so a malformed amount string (here `x`) does not produce a
`ParseError`; the call succeeds with no outputs. -/
theorem generate_tx_output_malformed_amount_ok :
    Session.generate_tx_output "" "x" "" = .ok [] := rfl

/-- C7 as amended: `generate_tx_output` fails (necessarily with `ParseError`)
exactly when the destination is non-empty and the amount string is malformed,
or the fee string is non-empty, not the literal `0`, and malformed; a
malformed amount with an empty destination, or a malformed fee that is empty
or `0`, is never parsed and raises no error. -/
theorem generate_tx_output_error_iff (toAddr amount fee : String) :
    Session.generate_tx_output toAddr amount fee = .error .ParseError ↔
      ((toAddr ≠ "" ∧ str_as_bigint amount = .error .ParseError) ∨
       (¬ (fee = "" ∨ fee = "0") ∧ str_as_bigint fee = .error .ParseError)) := by
  have herr : ∀ s e, str_as_bigint s = .error e → e = ErrorKind.ParseError := by
    intro s e hs
    unfold str_as_bigint at hs
    cases hd : decDigitsValue s.data <;> rw [hd] at hs <;> cases hs
    rfl
  by_cases ht : toAddr = "" <;> by_cases hf : fee = "" ∨ fee = "0"
  · simp [Session.generate_tx_output, ht, hf]
  · cases hfb : str_as_bigint fee with
    | error e =>
      have := herr _ _ hfb
      subst this
      simp [Session.generate_tx_output, ht, hf, hfb]
    | ok fm => simp [Session.generate_tx_output, ht, hf, hfb]
  · cases hab : str_as_bigint amount with
    | error e =>
      have := herr _ _ hab
      subst this
      simp [Session.generate_tx_output, ht, hf, hab]
    | ok am => simp [Session.generate_tx_output, ht, hf, hab]
  · cases hab : str_as_bigint amount with
    | error e =>
      have := herr _ _ hab
      subst this
      simp [Session.generate_tx_output, ht, hf, hab]
    | ok am =>
      cases hfb : str_as_bigint fee with
      | error e =>
        have := herr _ _ hfb
        subst this
        simp [Session.generate_tx_output, ht, hf, hab, hfb]
      | ok fm => simp [Session.generate_tx_output, ht, hf, hab, hfb]

/-- The signing tail changes only the signature lists and the identifier: the
description of a successfully signed transaction is the description of the
assembled transaction. -/
theorem sign_and_set_txid_desc (env : Env) (s : Session) (tx0 : Transaction)
    (alsoAuth : Bool) (tx' : Transaction)
    (h : sign_and_set_txid env s tx0 alsoAuth = .ok tx') : tx'.desc = tx0.desc := by
  cases alsoAuth with
  | false =>
    cases h1 : env.make_tx_digest_hash tx0 with
    | error e => simp [sign_and_set_txid, h1] at h
    | ok digest =>
      cases h2 : s.account.sign digest with
      | error e => simp [sign_and_set_txid, h1, h2] at h
      | ok sig =>
        cases h3 : s.account.public_key with
        | error e => simp [sign_and_set_txid, h1, h2, h3] at h
        | ok pk =>
          cases h4 : env.make_transaction_id
              { tx0 with initiator_signs := [{ PublicKey := pk, Sign := sig }] } with
          | error e => simp [sign_and_set_txid, h1, h2, h3, h4] at h
          | ok tid =>
            simp only [sign_and_set_txid, h1, h2, h3, Bool.false_eq_true, if_false, h4,
              Except.ok.injEq] at h
            rw [← h]
  | true =>
    cases h1 : env.make_tx_digest_hash tx0 with
    | error e => simp [sign_and_set_txid, h1] at h
    | ok digest =>
      cases h2 : s.account.sign digest with
      | error e => simp [sign_and_set_txid, h1, h2] at h
      | ok sig =>
        cases h3 : s.account.public_key with
        | error e => simp [sign_and_set_txid, h1, h2, h3] at h
        | ok pk =>
          cases h4 : env.make_transaction_id
              { tx0 with initiator_signs := [{ PublicKey := pk, Sign := sig }],
                         auth_require_signs := [{ PublicKey := pk, Sign := sig }] } with
          | error e => simp [sign_and_set_txid, h1, h2, h3, h4] at h
          | ok tid =>
            simp only [sign_and_set_txid, h1, h2, h3, if_true, h4,
              Except.ok.injEq] at h
            rw [← h]

/-- C10: the caller-supplied description never reaches either transaction:
every fee transaction built by `gen_compliance_check_tx` carries the fixed
description `compliance check tx`, and every real transaction built by
`gen_real_tx` carries an empty description, whatever the transfer intent's
description field holds. -/
theorem tx_desc_fixed :
    (∀ (env : Env) (s : Session) (cfg : Config)
       (resp : PreExecWithSelectUTXOResponse) (cctx : Transaction),
       Session.gen_compliance_check_tx env s cfg resp = .ok cctx →
       cctx.desc = strToBytes "compliance check tx") ∧
    (∀ (env : Env) (s : Session) (resp : PreExecWithSelectUTXOResponse)
       (cctx tx : Transaction),
       Session.gen_real_tx env s resp cctx = .ok tx → tx.desc = []) := by
  constructor
  · intro env s cfg resp cctx h
    unfold Session.gen_compliance_check_tx at h
    cases h1 : s.generate_tx_input resp.utxoOutput
        (i64wrap (cfg.compliance_check_endorse_service_fee : Int)) with
    | error e => simp [h1] at h
    | ok ic =>
      simp only [h1] at h
      cases h2 : Session.generate_tx_output cfg.compliance_check_endorse_service_fee_addr
          (toString cfg.compliance_check_endorse_service_fee) "0" with
      | error e => simp [h2] at h
      | ok outs =>
        simp only [h2] at h
        cases h3 : env.get_nonce1 with
        | error e => simp [h3] at h
        | ok nonce =>
          simp only [h3] at h
          rw [sign_and_set_txid_desc env s _ false cctx h]
  · intro env s resp cctx tx h
    unfold Session.gen_real_tx at h
    cases h1 : Session.generate_tx_output s.msg.«to» s.msg.amount s.msg.fee with
    | error e => simp [h1] at h
    | ok outs0 =>
      simp only [h1] at h
      cases h2 : str_as_bigint s.msg.amount with
      | error e => simp [h2] at h
      | ok amountV =>
        simp only [h2] at h
        cases h3 : str_as_bigint s.msg.fee with
        | error e => simp [h3] at h
        | ok feeV =>
          simp only [h3] at h
          cases h4 : s.generate_tx_input
              { utxoList := (collect_initiator_utxos cctx.tx_outputs
                  (strToBytes s.msg.initiator) cctx.txid).1,
                totalSelected := toString (collect_initiator_utxos cctx.tx_outputs
                  (strToBytes s.msg.initiator) cctx.txid).2 }
              (amountV + feeV) with
          | error e => simp [h4] at h
          | ok ic =>
            simp only [h4] at h
            cases h5 : env.get_nonce2 with
            | error e => simp [h5] at h
            | ok nonce =>
              simp only [h5] at h
              rw [sign_and_set_txid_desc env s _ _ tx h]

/-- The fee transaction produced by the concrete run of
`gen_compliance_check_tx` on the fixtures. -/
def cctxV : Transaction :=
  { txid := [2], version := 1, desc := strToBytes "compliance check tx",
    coinbase := false, timestamp := 0, tx_inputs := [], tx_outputs := [],
    initiator := "a", nonce := "n1", auth_require := [],
    initiator_signs := [{ PublicKey := [1], Sign := [0] }],
    auth_require_signs := [], tx_inputs_ext := [], tx_outputs_ext := [],
    contract_requests := [] }

/-- The real transaction produced by the concrete run of `gen_real_tx` on the
fixtures. -/
def realV : Transaction :=
  { txid := [2], version := 1, desc := [], coinbase := false, timestamp := 0,
    tx_inputs := [], tx_outputs := [], initiator := "a", nonce := "n2",
    auth_require := ["e"],
    initiator_signs := [{ PublicKey := [1], Sign := [0] }],
    auth_require_signs := [], tx_inputs_ext := [], tx_outputs_ext := [],
    contract_requests := [] }

/-- Witness for C10: a concrete successful run of both builders, with the fee
transaction's description equal to `compliance check tx` and the real
transaction's description empty. -/
theorem tx_desc_fixed_witness :
    Session.gen_compliance_check_tx envW sessionW cfgW prespW = .ok cctxV ∧
    cctxV.desc = strToBytes "compliance check tx" ∧
    Session.gen_real_tx envW sessionW prespW cctxV = .ok realV ∧
    realV.desc = [] :=
  ⟨rfl, tx_desc_fixed.1 envW sessionW cfgW prespW cctxV rfl, rfl,
   tx_desc_fixed.2 envW sessionW prespW cctxV realV rfl⟩

/-- C1: every successful run of the orchestrator `gen_complete_tx_and_post`
appends the endorsement `SignatureInfo` returned by `compliance_check` to the
real transaction's auth-required signature list, recomputes the transaction
identifier over the transaction including that appended signature, broadcasts
a transaction carrying exactly that recomputed identifier, and returns
exactly its hex encoding. -/
theorem gen_complete_tx_and_post_spec (env : Env) (s : Session) (cfg : Config)
    (resp : PreExecWithSelectUTXOResponse) (out : String)
    (h : (Session.gen_complete_tx_and_post env s cfg resp).1 = .ok out) :
    ∃ (cctx tx : Transaction) (end_sign : SignatureInfo) (tid : Bytes),
      Session.gen_compliance_check_tx env s cfg resp = .ok cctx ∧
      Session.gen_real_tx env s resp cctx = .ok tx ∧
      (Session.compliance_check env s tx cctx).1 = .ok end_sign ∧
      env.make_transaction_id
        { tx with auth_require_signs := tx.auth_require_signs ++ [end_sign] } =
        .ok tid ∧
      (Session.gen_complete_tx_and_post env s cfg resp).2 =
        (Session.compliance_check env s tx cctx).2 ++
          [.postTx { tx with auth_require_signs := tx.auth_require_signs ++ [end_sign], txid := tid }] ∧
      out = hexEncode tid := by
  have hmain := h
  unfold Session.gen_complete_tx_and_post at hmain
  cases h1 : Session.gen_compliance_check_tx env s cfg resp with
  | error e => simp [h1] at hmain
  | ok cctx =>
    simp only [h1] at hmain
    cases h2 : Session.gen_real_tx env s resp cctx with
    | error e => simp [h2] at hmain
    | ok tx =>
      simp only [h2] at hmain
      cases h3 : (Session.compliance_check env s tx cctx).1 with
      | err e => simp [h3] at hmain
      | panic => simp [h3] at hmain
      | ok end_sign =>
        simp only [h3] at hmain
        cases h4 : env.make_transaction_id
            { tx with auth_require_signs := tx.auth_require_signs ++ [end_sign] } with
        | error e => simp [h4] at hmain
        | ok tid =>
          simp only [h4] at hmain
          cases h5 : env.postTx
              { tx with auth_require_signs := tx.auth_require_signs ++ [end_sign], txid := tid } with
          | error e => simp [h5] at hmain
          | ok u =>
            simp only [h5, Outcome.ok.injEq] at hmain
            refine ⟨cctx, tx, end_sign, tid, rfl, h2, h3, h4, ?_, hmain.symm⟩
            have htr : Session.gen_complete_tx_and_post env s cfg resp =
                (.ok (hexEncode tid),
                 (Session.compliance_check env s tx cctx).2 ++
                   [.postTx { tx with auth_require_signs := tx.auth_require_signs ++ [end_sign], txid := tid }]) := by
              unfold Session.gen_complete_tx_and_post
              simp only [h1, h2, h3, h4, h5]
            rw [htr]

/-- Witness for C1: the concrete pipeline run on the fixtures succeeds and
returns the hex encoding `02` of the recomputed identifier `[2]`. -/
theorem gen_complete_tx_and_post_spec_witness :
    ∃ (cctx tx : Transaction) (end_sign : SignatureInfo) (tid : Bytes),
      Session.gen_compliance_check_tx envW sessionW cfgW prespW = .ok cctx ∧
      Session.gen_real_tx envW sessionW prespW cctx = .ok tx ∧
      (Session.compliance_check envW sessionW tx cctx).1 = .ok end_sign ∧
      envW.make_transaction_id
        { tx with auth_require_signs := tx.auth_require_signs ++ [end_sign] } =
        .ok tid ∧
      (Session.gen_complete_tx_and_post envW sessionW cfgW prespW).2 =
        (Session.compliance_check envW sessionW tx cctx).2 ++
          [.postTx { tx with auth_require_signs := tx.auth_require_signs ++ [end_sign], txid := tid }] ∧
      hexEncode [2] = hexEncode tid :=
  gen_complete_tx_and_post_spec envW sessionW cfgW prespW (hexEncode [2]) rfl

/-- Counterexample for C4: with the configured endorsement fee equal to the
parsed amount (both `100`), `transfer` does not fail with `InvalidArguments`:
it reaches the network (the effect trace of the run is non-empty), because the
code only rejects a fee strictly greater than the amount. -/
theorem transfer_fee_eq_amount_reaches_network :
    str_as_i64 "100" = .ok 100 ∧
    i64wrap (cfg100.compliance_check_endorse_service_fee : Int) = 100 ∧
    (transfer envDown cfg100 accountW "xuper" "b" "100" "0" "d").1 ≠
      .err .InvalidArguments ∧
    (transfer envDown cfg100 accountW "xuper" "b" "100" "0" "d").2 ≠ [] :=
  ⟨rfl, by decide, by decide, by decide⟩

/-- C4 as amended: whenever the amount and fee strings parse and the
configured endorsement fee is strictly greater than the parsed amount,
`transfer` fails with `InvalidArguments` and performs no network interaction
(the effect trace is empty). -/
theorem transfer_fee_gt_amount_invalid (env : Env) (cfg : Config)
    (account : Account) (chain toA amount fee desc : String) (av fv : Int)
    (ha : str_as_i64 amount = .ok av) (hf : str_as_i64 fee = .ok fv)
    (hgt : av < i64wrap (cfg.compliance_check_endorse_service_fee : Int)) :
    transfer env cfg account chain toA amount fee desc =
      (.err .InvalidArguments, []) := by
  simp [transfer, ha, hf, hgt]

/-- Witness for the amended C4: endorsement fee `100` against amount `99`
fails with `InvalidArguments` and an empty effect trace. -/
theorem transfer_fee_gt_amount_invalid_witness :
    str_as_i64 "99" = .ok 99 ∧ str_as_i64 "0" = .ok 0 ∧
    (99 : Int) < i64wrap (cfg100.compliance_check_endorse_service_fee : Int) ∧
    transfer envDown cfg100 accountW "xuper" "b" "99" "0" "d" =
      (.err .InvalidArguments, []) :=
  ⟨rfl, rfl, by decide,
   transfer_fee_gt_amount_invalid envDown cfg100 accountW "xuper" "b" "99" "0" "d"
     99 0 rfl rfl (by decide)⟩

/-- Values accepted by the 64-bit parser lie in `[0, 2 ^ 63)`. -/
theorem str_as_i64_bounds (s : String) (v : Int) (h : str_as_i64 s = .ok v) :
    0 ≤ v ∧ v < 2 ^ 63 := by
  unfold str_as_i64 at h
  cases hd : decDigitsValue s.data with
  | none => simp only [hd] at h; cases h
  | some n =>
    simp only [hd] at h
    by_cases hn : (n : Int) < 2 ^ 63
    · rw [if_pos hn] at h
      cases h
      exact ⟨by omega, hn⟩
    · rw [if_neg hn] at h; cases h

/-- The wrapped value always lies in the signed 64-bit range. -/
theorem i64wrap_mem (n : Int) : -(2 ^ 63) ≤ i64wrap n ∧ i64wrap n < 2 ^ 63 := by
  unfold i64wrap
  omega

/-- C5: whenever the amount and fee strings parse and the true sum of the
parsed amount, parsed fee and configured endorsement fee reaches `2 ^ 63`
(wrapping past the signed 64-bit boundary), `transfer` fails with
`InvalidArguments` and performs no network interaction. -/
theorem transfer_overflow_invalid (env : Env) (cfg : Config)
    (account : Account) (chain toA amount fee desc : String) (av fv : Int)
    (ha : str_as_i64 amount = .ok av) (hf : str_as_i64 fee = .ok fv)
    (hwrap : 2 ^ 63 ≤
      av + fv + i64wrap (cfg.compliance_check_endorse_service_fee : Int)) :
    transfer env cfg account chain toA amount fee desc =
      (.err .InvalidArguments, []) := by
  have hav := str_as_i64_bounds amount av ha
  have hfv := str_as_i64_bounds fee fv hf
  have hef := i64wrap_mem (cfg.compliance_check_endorse_service_fee : Int)
  by_cases hc : av < i64wrap (cfg.compliance_check_endorse_service_fee : Int)
  · simp [transfer, ha, hf, hc]
  · have hlt : i64wrap
        (av + fv + i64wrap (cfg.compliance_check_endorse_service_fee : Int)) < av := by
      unfold i64wrap at hwrap hef ⊢
      omega
    simp [transfer, ha, hf, hc, hlt]

/-- Witness for C5: amount, fee and configured endorsement fee all `2 ^ 62`,
whose sum `3 * 2 ^ 62` wraps past `2 ^ 63`; the transfer is rejected with an
empty effect trace. -/
theorem transfer_overflow_invalid_witness :
    str_as_i64 "4611686018427387904" = .ok 4611686018427387904 ∧
    (2 ^ 63 : Int) ≤ 4611686018427387904 + 4611686018427387904 +
      i64wrap (cfgBig.compliance_check_endorse_service_fee : Int) ∧
    transfer envW cfgBig accountW "xuper" "b" "4611686018427387904"
      "4611686018427387904" "d" = (.err .InvalidArguments, []) :=
  ⟨rfl, by decide,
   transfer_overflow_invalid envW cfgBig accountW "xuper" "b"
     "4611686018427387904" "4611686018427387904" "d"
     4611686018427387904 4611686018427387904 rfl rfl (by decide)⟩

/-- C8: the endorsement client takes the response signature by an unchecked
unwrap: on a response whose signature field is absent it aborts (`panic`)
rather than returning an error value, and on every response that carries a
signature it returns exactly that `SignatureInfo`. -/
theorem compliance_check_unwrap :
    (Session.compliance_check envNoSig sessionW txW txW).1 = .panic ∧
    (∀ (env : Env) (s : Session) (tx fee : Transaction) (rd : String)
       (resp : EndorserResponse) (sig : SignatureInfo),
       env.serTxStatus { bcname := s.chain_name, tx := tx } = .ok rd →
       env.endorserCall
         { RequestName := "ComplianceCheck", BcName := s.chain_name,
           Fee := some fee, RequestData := strToBytes rd } = .ok resp →
       resp.EndorserSign = some sig →
       (Session.compliance_check env s tx fee).1 = .ok sig) := by
  constructor
  · rfl
  · intro env s tx fee rd resp sig h1 h2 h3
    simp [Session.compliance_check, h1, h2, h3]

/-- Witness for C8: with an endorser that answers with the signature `sigW`,
the client returns exactly `sigW`. -/
theorem compliance_check_unwrap_witness :
    (Session.compliance_check envW sessionW txW txW).1 = .ok sigW :=
  compliance_check_unwrap.2 envW sessionW txW txW "s"
    { ResponseData := [], EndorserSign := some sigW } sigW rfl rfl rfl

end XchainSdk
